import Mathlib

/-!
Verification of the BXAssist scheduled-reminder lifecycle and signed-URL
attendance gate.

Shallow embedding of:
- src/lib/googleSheets.ts : the AttendanceReminderQueue tab helpers
  (findReminderForUser, upsertReminderQueueRow, markReminderStatus) and the
  Attendance tab helpers (recordCheckIn, recordCheckOut), with the sheet
  tabs modelled as lists of typed rows (every cell a String, exactly the
  columns the source reads and writes);
- src/lib/attendanceSecurity.ts (second document of src/lib/slack.ts) :
  generateSignedAttendanceUrl and verifySignedAttendanceRequest, with the
  HMAC-SHA256 hex digest treated as an opaque keyed function parameter and
  Node crypto.timingSafeEqual modelled including its RangeError on byte
  length mismatch;
- src/app/api/attendance/checkin/route.ts : the check-in handler from the
  recordCheckIn call onward (reminder-cancellation block with its nested
  try/catch, announcement, response body);
- the checkout handler (second document of src/app/api/attendance/raw/route.ts) :
  from the recordCheckOut call onward;
- src/app/api/cron/schedule-checkin-reminders/route.ts : the per-member
  scheduling loop with its per-member catch, and the aggregate counts of
  the JSON result.

External I/O (Slack RPCs, the Sheets HTTP transport) is represented by
explicit outcome parameters (Except values and failure flags); the clock
values datePk, timePk, nowIso produced by lib/timePk.ts and lib/pkTime.ts
are universally quantified inputs.
-/

/-! ## Reminder queue (AttendanceReminderQueue tab) -/

/-- One row of the AttendanceReminderQueue tab, columns A to F:
Date, SlackUserId, ImChannelId, ScheduledMessageId, PostAt (epoch seconds
stored as a string), Status (scheduled, cancelled, sent). -/
structure QueueRow where
  date : String
  slackUserId : String
  imChannelId : String
  scheduledMessageId : String
  postAt : String
  status : String
  deriving Repr, DecidableEq

/-- The queue tab contents below the header row. -/
abbrev Queue := List QueueRow

/-- Decimal digit test on a character, via its code point. -/
def isDigitChar (c : Char) : Bool :=
  48 ≤ c.toNat && c.toNat ≤ 57

/-- Value of a decimal digit string, most significant first. -/
def decimalNat (cs : List Char) : Nat :=
  cs.foldl (fun n c => 10 * n + (c.toNat - 48)) 0

/-- Optional-minus-sign decimal integer strings parse to their value;
anything else is rejected. Code point 45 is the minus sign. -/
def parseDecimalInt (cs : List Char) : Option Int :=
  match cs with
  | [] => none
  | c :: rest =>
    if c.toNat = 45 then
      if rest.isEmpty then none
      else if rest.all isDigitChar then some (-(decimalNat rest : Int)) else none
    else if cs.all isDigitChar then some ((decimalNat cs : Nat) : Int) else none

/-- Model of JS Number() restricted to the strings this code produces and
receives: the empty string parses to 0, optional-minus-sign decimal integer
strings parse to their value, and everything else is NaN (none).
Whitespace-padded, fractional, exponent and hex literals are not modelled;
every ts and PostAt written by this code is an integral decimal string. -/
def jsNumber (s : String) : Option Int :=
  if s.data.isEmpty then some 0 else parseDecimalInt s.data

/-- Model of the JS pattern Number(x) or-else 0: NaN collapses to 0. -/
def jsIntOr0 (s : String) : Int :=
  (jsNumber s).getD 0

/-- Result shape of findReminderForUser in src/lib/googleSheets.ts. -/
structure FoundReminder where
  imChannelId : String
  scheduledMessageId : String
  postAt : Int
  status : String
  deriving Repr, DecidableEq

/-- findReminderForUser (src/lib/googleSheets.ts:537): scan the queue rows
top to bottom and return the first row whose Date and SlackUserId columns
both match, with the cell defaults the source applies (empty-string
defaults, Number(row4) or-else 0). -/
def findReminderForUser : Queue → String → String → Option FoundReminder
  | [], _, _ => none
  | row :: rest, datePk, slackUserId =>
    if row.date = datePk ∧ row.slackUserId = slackUserId then
      some { imChannelId := row.imChannelId
             scheduledMessageId := row.scheduledMessageId
             postAt := jsIntOr0 row.postAt
             status := row.status }
    else findReminderForUser rest datePk slackUserId

/-- Row replacement helper for upsertReminderQueueRow: replace the first
row whose Date and SlackUserId match the key of the new row, else append
the new row at the bottom of the tab. -/
def upsertRow : Queue → QueueRow → Queue
  | [], r => [r]
  | row :: rest, r =>
    if row.date = r.date ∧ row.slackUserId = r.slackUserId then r :: rest
    else row :: upsertRow rest r

/-- upsertReminderQueueRow (src/lib/googleSheets.ts:475): build the six
cell values (PostAt via toString) and update the first matching row in
place, appending when no row matches the (date, user) key. -/
def upsertReminderQueueRow (queue : Queue) (datePk slackUserId imChannelId scheduledMessageId : String)
    (postAt : Int) (status : String) : Queue :=
  upsertRow queue
    { date := datePk
      slackUserId := slackUserId
      imChannelId := imChannelId
      scheduledMessageId := scheduledMessageId
      postAt := toString postAt
      status := status }

/-- markReminderStatus (src/lib/googleSheets.ts:572): find the first row
matching the (date, user) key; throw when none exists, else overwrite only
the Status cell (column F) of that row. -/
def markReminderStatus : Queue → String → String → String → Except String Queue
  | [], _, _, _ => Except.error ("Reminder queue entry not found")
  | row :: rest, datePk, slackUserId, status =>
    if row.date = datePk ∧ row.slackUserId = slackUserId then
      Except.ok ({ row with status := status } :: rest)
    else
      match markReminderStatus rest datePk slackUserId status with
      | Except.ok rest2 => Except.ok (row :: rest2)
      | Except.error e => Except.error e

/-! ## Attendance ledger (Attendance tab) -/

/-- One row of the Attendance tab, columns A to H: Date, SlackUserId,
EmployeeName, CheckInTime, CheckOutTime, TotalHours, FirstCheckInTimestamp,
LastCheckOutTimestamp. -/
structure AttRow where
  date : String
  slackUserId : String
  employeeName : String
  checkInTime : String
  checkOutTime : String
  totalHours : String
  firstCheckInTimestamp : String
  lastCheckOutTimestamp : String
  deriving Repr, DecidableEq

/-- The row predicate both attendance scans use: Date and SlackUserId match
and the CheckInTime cell is truthy (non-empty). -/
abbrev isCheckedInRowFor (datePk slackUserId : String) (r : AttRow) : Prop :=
  r.date = datePk ∧ r.slackUserId = slackUserId ∧ r.checkInTime ≠ ""

/-- The scan shared by recordCheckIn and recordCheckOut: first row with
matching Date and SlackUserId whose CheckInTime cell is non-empty
(rows with an empty CheckInTime cell are passed over). -/
def findCheckedInRow : List AttRow → String → String → Option AttRow
  | [], _, _ => none
  | r :: rest, datePk, slackUserId =>
    if isCheckedInRowFor datePk slackUserId r then some r
    else findCheckedInRow rest datePk slackUserId

/-- Result shape of recordCheckIn in src/lib/googleSheets.ts. -/
structure CheckInResult where
  alreadyCheckedIn : Bool
  checkInTime : Option String
  date : String
  firstCheckInTimestamp : Option String
  deriving Repr, DecidableEq

/-- recordCheckIn (src/lib/googleSheets.ts:200): when a checked-in row for
(datePk, slackUserId) exists, report alreadyCheckedIn with its CheckInTime
and FirstCheckInTimestamp (column G, defaulting to nowIso) and leave the
tab untouched; otherwise append a fresh eight-cell row with CheckInTime =
timePk and FirstCheckInTimestamp = nowIso. The clock values datePk, timePk,
nowIso are the outputs of nowPk() in lib/timePk.ts, passed explicitly. -/
def recordCheckIn (ledger : List AttRow) (slackUserId employeeName datePk timePk nowIso : String) :
    CheckInResult × List AttRow :=
  match findCheckedInRow ledger datePk slackUserId with
  | some r =>
    ({ alreadyCheckedIn := true
       checkInTime := some r.checkInTime
       date := datePk
       firstCheckInTimestamp := some (if r.firstCheckInTimestamp = "" then nowIso else r.firstCheckInTimestamp) },
     ledger)
  | none =>
    ({ alreadyCheckedIn := false
       checkInTime := none
       date := datePk
       firstCheckInTimestamp := some nowIso },
     ledger ++ [{ date := datePk
                  slackUserId := slackUserId
                  employeeName := employeeName
                  checkInTime := timePk
                  checkOutTime := ""
                  totalHours := ""
                  firstCheckInTimestamp := nowIso
                  lastCheckOutTimestamp := "" }])

/-- Result shape of recordCheckOut in src/lib/googleSheets.ts. The float
field totalHoursDecimal of the source is not carried (floating point); the
formatted TotalHours string is modelled through the fmt parameter. -/
structure CheckOutResult where
  canCheckout : Bool
  alreadyCheckedOut : Option Bool
  checkOutTime : Option String
  checkInTime : Option String
  date : Option String
  totalHours : Option String
  deriving Repr, DecidableEq

/-- The scan loop of recordCheckOut (src/lib/googleSheets.ts:274): find the
first checked-in row for the key; without one report canCheckout = false
and write nothing; with one already checked out report its cells unchanged;
otherwise fill CheckOutTime, TotalHours and LastCheckOutTimestamp of that
row only. parse models new Date(iso).getTime(); fmt models
formatTotalHours(totalMs / 3600000) from lib/timePk.ts. -/
def recordCheckOutScan (parse : String → Int) (fmt : Int → String)
    (slackUserId datePk timePk nowIso : String) : List AttRow → CheckOutResult × List AttRow
  | [] =>
    ({ canCheckout := false, alreadyCheckedOut := none, checkOutTime := none,
       checkInTime := none, date := none, totalHours := none }, [])
  | r :: rest =>
    if isCheckedInRowFor datePk slackUserId r then
      if r.checkOutTime ≠ "" then
        ({ canCheckout := true, alreadyCheckedOut := some true,
           checkOutTime := some r.checkOutTime, checkInTime := some r.checkInTime,
           date := some datePk, totalHours := some r.totalHours }, r :: rest)
      else
        let firstCheckInTimestamp := if r.firstCheckInTimestamp = "" then nowIso else r.firstCheckInTimestamp
        let totalMs := parse nowIso - parse firstCheckInTimestamp
        let filled := { r with checkOutTime := timePk
                               totalHours := fmt totalMs
                               lastCheckOutTimestamp := nowIso }
        ({ canCheckout := true, alreadyCheckedOut := some false,
           checkOutTime := some timePk, checkInTime := some r.checkInTime,
           date := some datePk, totalHours := some (fmt totalMs) }, filled :: rest)
    else
      let res := recordCheckOutScan parse fmt slackUserId datePk timePk nowIso rest
      (res.1, r :: res.2)

/-- recordCheckOut (src/lib/googleSheets.ts:274). The employeeName argument
of the source is destructured but never used, so it is dropped here. -/
def recordCheckOut (parse : String → Int) (fmt : Int → String)
    (ledger : List AttRow) (slackUserId datePk timePk nowIso : String) :
    CheckOutResult × List AttRow :=
  recordCheckOutScan parse fmt slackUserId datePk timePk nowIso ledger

/-! ## Signed attendance links (src/lib/attendanceSecurity.ts) -/

/-- The 10 minute window of verifySignedAttendanceRequest, in milliseconds. -/
def ATTENDANCE_MAX_AGE_MS : Int := 10 * 60 * 1000

/-- Node crypto.timingSafeEqual on the UTF-8 buffers of two strings: it
throws a RangeError when the byte lengths differ, else reports byte
equality (UTF-8 encoding is injective, so byte equality is string
equality). -/
def timingSafeEqual (a b : String) : Except String Bool :=
  if a.utf8ByteSize = b.utf8ByteSize then Except.ok (a == b)
  else Except.error ("RangeError: Input buffers must have the same byte length")

/-- The query-parameter triple a signed attendance URL carries (u, ts, sig).
The URL string assembly around them (APP_BASE_URL, path, encodeURIComponent)
is not modelled; the handlers parse exactly this triple back out. -/
structure SignedParams where
  slackUserId : String
  ts : String
  sig : String
  deriving Repr, DecidableEq

/-- generateSignedAttendanceUrl (src/lib/attendanceSecurity.ts): throws when
the signing secret or base URL is unset; otherwise captures Date.now() as a
decimal string and signs the payload type:slackUserId:ts with the keyed
HMAC-SHA256 hex digest, passed in as the opaque function hmac. -/
def generateSignedAttendanceUrl (secret baseUrl : Option String)
    (hmac : String → String → String) (nowMs : Int) (type slackUserId : String) :
    Except String SignedParams :=
  match secret with
  | none => Except.error ("ATTENDANCE_SIGNING_SECRET is not set")
  | some sec =>
    match baseUrl with
    | none => Except.error ("APP_BASE_URL is not set")
    | some _ =>
      let ts := toString nowMs
      let payload := type ++ ":" ++ slackUserId ++ ":" ++ ts
      Except.ok { slackUserId := slackUserId, ts := ts, sig := hmac sec payload }

/-- verifySignedAttendanceRequest (src/lib/attendanceSecurity.ts): false when
the secret is unset; otherwise ageMs = now - Number(ts) is rejected when
above the 10 minute window or negative, and then the recomputed signature is
compared with crypto.timingSafeEqual, whose RangeError on a length mismatch
propagates out of the function (no catch in the source). When Number(ts) is
NaN both comparisons on ageMs are false in JS, so neither rejection fires
and control falls through to the comparison: the none branch below. -/
def verifySignedAttendanceRequest (secret : Option String)
    (hmac : String → String → String) (nowMs : Int) (type slackUserId ts sig : String) :
    Except String Bool :=
  match secret with
  | none => Except.ok false
  | some sec =>
    let payload := type ++ ":" ++ slackUserId ++ ":" ++ ts
    match jsNumber ts with
    | some tsNum =>
      if nowMs - tsNum > ATTENDANCE_MAX_AGE_MS then Except.ok false
      else if nowMs - tsNum < 0 then Except.ok false
      else timingSafeEqual (hmac sec payload) sig
    | none => timingSafeEqual (hmac sec payload) sig

/-- Stand-in hex digest with the length every HMAC-SHA256 hex digest has
(64 ASCII characters); used to instantiate the opaque hmac parameter in
concrete evaluations. -/
def demoDigest : String :=
  "0123456789abcdef0123456789abcdef0123456789abcdef0123456789abcdef"

/-- Constant keyed-digest stand-in for concrete evaluations. -/
def demoHmac (_key _msg : String) : String := demoDigest

/-! ## Check-in handler (src/app/api/attendance/checkin/route.ts) -/

/-- Failure switches for the external calls of the reminder-cancellation
block and the announcement of the check-in handler: findFails makes the
reminder lookup RPC throw (outer catch, line 94), deleteFails makes
chat.deleteScheduledMessage throw and markFails makes the status-update RPC
throw (both inner catch, line 89), announceFails makes the
chat.postMessage announcement throw (handler-level catch, line 150). -/
structure CheckInEnv where
  findFails : Bool
  deleteFails : Bool
  markFails : Bool
  announceFails : Bool

/-- The reminder-cancellation block of the check-in handler (route.ts lines
69 to 97): look up the reminder for (today, user); when one exists with
status scheduled, delete the scheduled Slack message and mark the queue row
cancelled. Every failure is caught and leaves the queue as it stands at
that point; a thrown markReminderStatus is caught the same way. -/
def cancelReminderStep (env : CheckInEnv) (queue : Queue) (datePk slackUserId : String) : Queue :=
  if env.findFails then queue
  else
    match findReminderForUser queue datePk slackUserId with
    | some reminder =>
      if reminder.status = "scheduled" then
        if env.deleteFails then queue
        else if env.markFails then queue
        else
          match markReminderStatus queue datePk slackUserId "cancelled" with
          | Except.ok queue2 => queue2
          | Except.error _ => queue
      else queue
    | none => queue

/-- The check-in handler from the recordCheckIn call onward (route.ts lines
61 to 153): report the already-checked-in body without touching the queue,
or on a fresh claim run the cancellation block and answer the success body.
A throwing announcement reaches the handler-level catch, which answers the
generic error body but rolls nothing back. Returns (response body, ledger,
queue). -/
def checkInGate (env : CheckInEnv) (ledger : List AttRow) (queue : Queue)
    (slackUserId employeeName datePk timePk nowIso timePkHHmm : String) :
    String × List AttRow × Queue :=
  let r := recordCheckIn ledger slackUserId employeeName datePk timePk nowIso
  if r.1.alreadyCheckedIn then
    ("You already checked in today at " ++ (Option.getD r.1.checkInTime ("")) ++ ".", r.2, queue)
  else
    let queue2 := cancelReminderStep env queue datePk slackUserId
    if env.announceFails then
      ("❌ An error occurred while recording check-in. Please try again.", r.2, queue2)
    else
      ("✅ Check-in recorded for " ++ employeeName ++ " at " ++ timePkHHmm ++ ".", r.2, queue2)

/-! ## Checkout handler (checkout document of src/app/api/attendance/raw/route.ts) -/

/-- The checkout handler from the recordCheckOut call onward: the
no-check-in rejection, the already-checked-out summary, or the success body
(the announcement post, a pure side effect on Slack, is not modelled).
Returns (response body, ledger). -/
def checkOutGate (parse : String → Int) (fmt : Int → String) (ledger : List AttRow)
    (slackUserId employeeName datePk timePk nowIso timePkHHmm : String) :
    String × List AttRow :=
  let r := recordCheckOut parse fmt ledger slackUserId datePk timePk nowIso
  if r.1.canCheckout = false then
    ("❌ No check-in found for today. Please check in first.", r.2)
  else if r.1.alreadyCheckedOut = some true then
    ("You already checked out today at " ++ (Option.getD r.1.checkOutTime ("")) ++
       ". Check-in was at " ++ (Option.getD r.1.checkInTime ("")) ++ ".", r.2)
  else
    ("✅ Check-out recorded for " ++ employeeName ++ " at " ++ timePkHHmm ++ ".<br><br>\n      " ++
       "<strong>Summary:</strong><br>\n      " ++
       "Date: " ++ (Option.getD r.1.date ("")) ++ "<br>\n      " ++
       "Check-in: " ++ (Option.getD r.1.checkInTime ("")) ++ "<br>\n      " ++
       "Check-out: " ++ (Option.getD r.1.checkOutTime ("")) ++ "<br>\n      " ++
       "Total Hours: " ++ (Option.getD r.1.totalHours ("")), r.2)

/-! ## Daily scheduler (src/app/api/cron/schedule-checkin-reminders/route.ts) -/

/-- Per-member outcomes of the external calls inside the scheduling loop:
findFails makes the queue-lookup RPC throw, openDm is the
conversations.open result (channel id, or none when no id is returned),
signFails makes generateSignedAttendanceUrl throw, schedule is the
chat.scheduleMessage result (scheduled_message_id, or none when missing),
upsertFails makes the queue write throw. Every throw lands in the
per-member catch (route.ts line 179). -/
structure MemberEnv where
  findFails : Bool
  openDm : Except String (Option String)
  signFails : Bool
  schedule : Except String (Option String)
  upsertFails : Bool

/-- Which counter a member ends in: successCount, skippedCount or
errorCount of the source loop. -/
inductive MemberOutcome
  | scheduled
  | skipped
  | errored
  deriving Repr, DecidableEq

/-- The skip test of route.ts line 99: existing and existing.status is the
string scheduled. -/
def statusIsScheduled : Option FoundReminder → Bool
  | some e => e.status = "scheduled"
  | none => false

/-- One iteration of the scheduling loop (route.ts lines 83 to 183): skip
when a scheduled entry already exists for (today, member); otherwise open
the DM channel, sign the link, schedule the message and upsert a fresh
scheduled queue row. Every failure counts the member as errored and leaves
the queue untouched, and the loop moves on. -/
def processMember (env : MemberEnv) (queue : Queue) (datePk : String) (postAt : Int)
    (memberId : String) : MemberOutcome × Queue :=
  if env.findFails then (MemberOutcome.errored, queue)
  else if statusIsScheduled (findReminderForUser queue datePk memberId) then
    (MemberOutcome.skipped, queue)
  else
    match env.openDm with
    | Except.error _ => (MemberOutcome.errored, queue)
    | Except.ok none => (MemberOutcome.errored, queue)
    | Except.ok (some imChannelId) =>
      if env.signFails then (MemberOutcome.errored, queue)
      else
        match env.schedule with
        | Except.error _ => (MemberOutcome.errored, queue)
        | Except.ok none => (MemberOutcome.errored, queue)
        | Except.ok (some scheduledMessageId) =>
          if env.upsertFails then (MemberOutcome.errored, queue)
          else
            (MemberOutcome.scheduled,
             upsertReminderQueueRow queue datePk memberId imChannelId scheduledMessageId postAt "scheduled")

/-- The three aggregate counters of the loop. -/
structure RunCounts where
  scheduled : Nat
  skipped : Nat
  errors : Nat
  deriving Repr, DecidableEq

/-- Componentwise sum of counters. -/
def addCounts (a b : RunCounts) : RunCounts :=
  { scheduled := a.scheduled + b.scheduled
    skipped := a.skipped + b.skipped
    errors := a.errors + b.errors }

/-- The counter a single member outcome contributes. -/
def countOf : MemberOutcome → RunCounts
  | MemberOutcome.scheduled => { scheduled := 1, skipped := 0, errors := 0 }
  | MemberOutcome.skipped => { scheduled := 0, skipped := 1, errors := 0 }
  | MemberOutcome.errored => { scheduled := 0, skipped := 0, errors := 1 }

/-- The member loop: process the members in order, threading the queue and
summing the counters. envOf gives each member its external-call outcomes. -/
def schedulerLoop (envOf : String → MemberEnv) (datePk : String) (postAt : Int) :
    List String → Queue → RunCounts × Queue
  | [], queue => ({ scheduled := 0, skipped := 0, errors := 0 }, queue)
  | m :: ms, queue =>
    let step := processMember (envOf m) queue datePk postAt m
    let rest := schedulerLoop envOf datePk postAt ms step.2
    (addCounts (countOf step.1) rest.1, rest.2)

/-- The fields of the JSON result of the cron route that concern the roster
(route.ts lines 185 to 194): totalMembers, scheduled, skipped, errors. -/
structure RunReport where
  totalMembers : Nat
  scheduled : Nat
  skipped : Nat
  errors : Nat
  deriving Repr, DecidableEq

/-- The daily scheduler run (GET of the cron route) over a roster and the
current queue: run the loop and report the aggregate counts next to the
roster size. -/
def scheduleCheckinRemindersRun (envOf : String → MemberEnv) (datePk : String) (postAt : Int)
    (members : List String) (queue : Queue) : RunReport × Queue :=
  let run := schedulerLoop envOf datePk postAt members queue
  ({ totalMembers := members.length
     scheduled := run.1.scheduled
     skipped := run.1.skipped
     errors := run.1.errors }, run.2)

/-- The all-success per-member environment: the DM channel opens with id c,
the link signs, the provider returns scheduled message id mid, the queue
write lands. -/
def allOkEnv (c mid : String) : MemberEnv :=
  { findFails := false
    openDm := Except.ok (some c)
    signFails := false
    schedule := Except.ok (some mid)
    upsertFails := false }

/-- The rows of the Attendance tab that carry a non-empty CheckInTime cell
for a key; the at-most-one-row-per-key reading of the ledger is about
exactly these rows. -/
def checkedInRowsFor (L : List AttRow) (datePk slackUserId : String) : List AttRow :=
  L.filter (fun r => decide (isCheckedInRowFor datePk slackUserId r))

/-- At most one checked-in row per (date, user) key. -/
def attLedgerInv (L : List AttRow) : Prop :=
  ∀ datePk slackUserId, (checkedInRowsFor L datePk slackUserId).length ≤ 1

/-! ## Helper lemmas -/

theorem find_upsertRow (q : Queue) (r : QueueRow) :
    findReminderForUser (upsertRow q r) r.date r.slackUserId
      = some { imChannelId := r.imChannelId, scheduledMessageId := r.scheduledMessageId,
               postAt := jsIntOr0 r.postAt, status := r.status } := by
  induction q with
  | nil => simp [upsertRow, findReminderForUser]
  | cons row rest ih =>
    by_cases h : row.date = r.date ∧ row.slackUserId = r.slackUserId
    · simp [upsertRow, h, findReminderForUser]
    · simp [upsertRow, h, findReminderForUser, ih]

theorem markReminderStatus_notFound (q : Queue) (d u status : String)
    (h : ∀ r ∈ q, ¬(r.date = d ∧ r.slackUserId = u)) :
    markReminderStatus q d u status = Except.error ("Reminder queue entry not found") := by
  induction q with
  | nil => rfl
  | cons row rest ih =>
    have hrow := h row (by simp)
    have hrest := ih (fun r hr => h r (by simp [hr]))
    simp [markReminderStatus, hrow, hrest]

theorem markReminderStatus_found (pre post : List QueueRow) (row : QueueRow) (d u status : String)
    (hpre : ∀ r ∈ pre, ¬(r.date = d ∧ r.slackUserId = u))
    (hd : row.date = d) (hu : row.slackUserId = u) :
    markReminderStatus (pre ++ row :: post) d u status
      = Except.ok (pre ++ { row with status := status } :: post) := by
  induction pre with
  | nil => simp [markReminderStatus, hd, hu]
  | cons p ps ih =>
    have hp := hpre p (by simp)
    have hps := ih (fun r hr => hpre r (by simp [hr]))
    simp [markReminderStatus, hp, hps]

theorem findCheckedInRow_none_iff (L : List AttRow) (d u : String) :
    findCheckedInRow L d u = none ↔ ∀ r ∈ L, ¬ isCheckedInRowFor d u r := by
  induction L with
  | nil => simp [findCheckedInRow]
  | cons r rest ih =>
    rw [findCheckedInRow]
    by_cases hr : isCheckedInRowFor d u r
    · rw [if_pos hr]
      constructor
      · intro h
        simp at h
      · intro h
        exact absurd hr (h r (List.mem_cons_self r rest))
    · rw [if_neg hr, ih]
      constructor
      · intro h x hx
        rcases List.mem_cons.mp hx with h1 | h2
        · subst h1
          exact hr
        · exact h x h2
      · intro h x hx
        exact h x (List.mem_cons_of_mem _ hx)

theorem recordCheckIn_fresh (L : List AttRow) (uid name d timePk nowIso : String)
    (h : (recordCheckIn L uid name d timePk nowIso).1.alreadyCheckedIn = false) :
    findCheckedInRow L d uid = none := by
  cases hf : findCheckedInRow L d uid with
  | none => rfl
  | some r => simp [recordCheckIn, hf] at h

theorem findCheckedInRow_append_single (L : List AttRow) (r : AttRow) (d u : String)
    (h : findCheckedInRow L d u = none) (hr : isCheckedInRowFor d u r) :
    findCheckedInRow (L ++ [r]) d u = some r := by
  induction L with
  | nil => simp [findCheckedInRow, hr]
  | cons a as ih =>
    rw [findCheckedInRow] at h
    rw [List.cons_append, findCheckedInRow]
    by_cases ha : isCheckedInRowFor d u a
    · rw [if_pos ha] at h
      exact absurd h (by simp)
    · rw [if_neg ha] at h
      rw [if_neg ha]
      exact ih h

theorem recordCheckOutScan_none (parse : String → Int) (fmt : Int → String)
    (uid d timePk nowIso : String) (L : List AttRow)
    (h : ∀ r ∈ L, ¬ isCheckedInRowFor d uid r) :
    recordCheckOutScan parse fmt uid d timePk nowIso L
      = ({ canCheckout := false, alreadyCheckedOut := none, checkOutTime := none,
           checkInTime := none, date := none, totalHours := none }, L) := by
  induction L with
  | nil => rfl
  | cons r rest ih =>
    have hr := h r (by simp)
    have hrest := ih (fun x hx => h x (by simp [hx]))
    simp [recordCheckOutScan, hr, hrest]

theorem checkedInRowsFor_nil_of_none (L : List AttRow) (d u : String)
    (h : findCheckedInRow L d u = none) : checkedInRowsFor L d u = [] := by
  rw [findCheckedInRow_none_iff] at h
  simpa [checkedInRowsFor, List.filter_eq_nil_iff] using h

/-! ## Claim theorems -/

/-- C3: Idempotent check-in. After a successful first recordCheckIn for a
subject and day, a second call reports alreadyCheckedIn = true with the
originally recorded check-in time, and the attendance tab after the second
call is exactly the tab after the first call: no row appended, no cell
overwritten. The hypothesis timePk1 not empty holds of every HH:mm:ss
string nowPk() produces. -/
theorem claimC3 (L : List AttRow) (uid name1 name2 d timePk1 nowIso1 timePk2 nowIso2 : String)
    (hfresh : (recordCheckIn L uid name1 d timePk1 nowIso1).1.alreadyCheckedIn = false)
    (ht : timePk1 ≠ "") :
    (recordCheckIn (recordCheckIn L uid name1 d timePk1 nowIso1).2 uid name2 d timePk2 nowIso2).1.alreadyCheckedIn = true ∧
    (recordCheckIn (recordCheckIn L uid name1 d timePk1 nowIso1).2 uid name2 d timePk2 nowIso2).1.checkInTime = some timePk1 ∧
    (recordCheckIn (recordCheckIn L uid name1 d timePk1 nowIso1).2 uid name2 d timePk2 nowIso2).2
      = (recordCheckIn L uid name1 d timePk1 nowIso1).2 := by
  have hf : findCheckedInRow L d uid = none := recordCheckIn_fresh L uid name1 d timePk1 nowIso1 hfresh
  have hrow : isCheckedInRowFor d uid
      { date := d, slackUserId := uid, employeeName := name1, checkInTime := timePk1,
        checkOutTime := "", totalHours := "", firstCheckInTimestamp := nowIso1,
        lastCheckOutTimestamp := "" } := by
    exact ⟨rfl, rfl, ht⟩
  have hfind := findCheckedInRow_append_single L _ d uid hf hrow
  simp [recordCheckIn, hf, hfind]

/-- C3 witness: concrete double check-in for U1 on 2025-01-15. -/
theorem claimC3_witness :
    (recordCheckIn (recordCheckIn [] "U1" "Ada" "2025-01-15" "09:05:00" "2025-01-15T04:05:00.000Z").2
        "U1" "Ada" "2025-01-15" "09:07:00" "2025-01-15T04:07:00.000Z").1.alreadyCheckedIn = true ∧
    (recordCheckIn (recordCheckIn [] "U1" "Ada" "2025-01-15" "09:05:00" "2025-01-15T04:05:00.000Z").2
        "U1" "Ada" "2025-01-15" "09:07:00" "2025-01-15T04:07:00.000Z").1.checkInTime = some "09:05:00" ∧
    (recordCheckIn (recordCheckIn [] "U1" "Ada" "2025-01-15" "09:05:00" "2025-01-15T04:05:00.000Z").2
        "U1" "Ada" "2025-01-15" "09:07:00" "2025-01-15T04:07:00.000Z").2
      = (recordCheckIn [] "U1" "Ada" "2025-01-15" "09:05:00" "2025-01-15T04:05:00.000Z").2 :=
  claimC3 [] "U1" "Ada" "Ada" "2025-01-15" "09:05:00" "2025-01-15T04:05:00.000Z"
    "09:07:00" "2025-01-15T04:07:00.000Z" (by decide) (by decide)

/-- C5: Checkout precondition. When the attendance tab holds no row for the
key with a non-empty check-in cell, recordCheckOut reports
canCheckout = false and writes nothing, and the checkout handler answers
the no-check-in rejection without creating a row. -/
theorem claimC5 (parse : String → Int) (fmt : Int → String) (L : List AttRow)
    (uid name d timePk nowIso hhmm : String)
    (h : ∀ r ∈ L, ¬ isCheckedInRowFor d uid r) :
    recordCheckOut parse fmt L uid d timePk nowIso
      = ({ canCheckout := false, alreadyCheckedOut := none, checkOutTime := none,
           checkInTime := none, date := none, totalHours := none }, L) ∧
    checkOutGate parse fmt L uid name d timePk nowIso hhmm
      = ("❌ No check-in found for today. Please check in first.", L) := by
  have h1 := recordCheckOutScan_none parse fmt uid d timePk nowIso L h
  refine ⟨h1, ?_⟩
  simp [checkOutGate, recordCheckOut] at h1 ⊢
  simp [h1]

/-- C5 witness: checkout for U3 against a tab holding only an unrelated row
of another user. -/
theorem claimC5_witness :
    recordCheckOut (fun _ => 0) (fun _ => "0h 0m")
        [{ date := "2025-01-15", slackUserId := "U1", employeeName := "Ada",
           checkInTime := "09:05:00", checkOutTime := "", totalHours := "",
           firstCheckInTimestamp := "2025-01-15T04:05:00.000Z", lastCheckOutTimestamp := "" }]
        "U3" "2025-01-15" "17:00:00" "2025-01-15T12:00:00.000Z"
      = ({ canCheckout := false, alreadyCheckedOut := none, checkOutTime := none,
           checkInTime := none, date := none, totalHours := none },
         [{ date := "2025-01-15", slackUserId := "U1", employeeName := "Ada",
            checkInTime := "09:05:00", checkOutTime := "", totalHours := "",
            firstCheckInTimestamp := "2025-01-15T04:05:00.000Z", lastCheckOutTimestamp := "" }]) ∧
    checkOutGate (fun _ => 0) (fun _ => "0h 0m")
        [{ date := "2025-01-15", slackUserId := "U1", employeeName := "Ada",
           checkInTime := "09:05:00", checkOutTime := "", totalHours := "",
           firstCheckInTimestamp := "2025-01-15T04:05:00.000Z", lastCheckOutTimestamp := "" }]
        "U3" "Cid" "2025-01-15" "17:00:00" "2025-01-15T12:00:00.000Z" "17:00"
      = ("❌ No check-in found for today. Please check in first.",
         [{ date := "2025-01-15", slackUserId := "U1", employeeName := "Ada",
            checkInTime := "09:05:00", checkOutTime := "", totalHours := "",
            firstCheckInTimestamp := "2025-01-15T04:05:00.000Z", lastCheckOutTimestamp := "" }]) :=
  claimC5 (fun _ => 0) (fun _ => "0h 0m") _ "U3" "Cid" "2025-01-15" "17:00:00"
    "2025-01-15T12:00:00.000Z" "17:00" (by decide)

/-- C7: setStatus frame condition. markReminderStatus throws the not-found
error when no queue row matches the key; when one does, the result replaces
only the status field of the first matching row, keeping its date, user,
channel id, message handle and target time, and keeps every other row of
the queue unchanged. -/
theorem claimC7 (d u status : String) :
    (∀ q : Queue, (∀ r ∈ q, ¬(r.date = d ∧ r.slackUserId = u)) →
        markReminderStatus q d u status = Except.error ("Reminder queue entry not found")) ∧
    (∀ (pre post : List QueueRow) (row : QueueRow),
        (∀ r ∈ pre, ¬(r.date = d ∧ r.slackUserId = u)) →
        row.date = d → row.slackUserId = u →
        markReminderStatus (pre ++ row :: post) d u status
          = Except.ok (pre ++ { row with status := status } :: post)) :=
  ⟨fun q h => markReminderStatus_notFound q d u status h,
   fun pre post row hpre hd hu => markReminderStatus_found pre post row d u status hpre hd hu⟩

/-- C7 witness: the missing key throws; the present key flips only the
status cell of its row, leaving the neighbouring row alone. -/
theorem claimC7_witness :
    markReminderStatus
        [{ date := "2025-01-15", slackUserId := "U2", imChannelId := "D2",
           scheduledMessageId := "M2", postAt := "111", status := "scheduled" }]
        "2025-01-15" "U9" "cancelled" = Except.error ("Reminder queue entry not found") ∧
    markReminderStatus
        ([{ date := "2025-01-15", slackUserId := "U2", imChannelId := "D2",
            scheduledMessageId := "M2", postAt := "111", status := "scheduled" }] ++
          { date := "2025-01-15", slackUserId := "U1", imChannelId := "D1",
            scheduledMessageId := "M1", postAt := "123", status := "scheduled" } ::
          [{ date := "2025-01-16", slackUserId := "U1", imChannelId := "D1",
             scheduledMessageId := "M3", postAt := "222", status := "sent" }])
        "2025-01-15" "U1" "cancelled"
      = Except.ok
          ([{ date := "2025-01-15", slackUserId := "U2", imChannelId := "D2",
              scheduledMessageId := "M2", postAt := "111", status := "scheduled" }] ++
            { date := "2025-01-15", slackUserId := "U1", imChannelId := "D1",
              scheduledMessageId := "M1", postAt := "123", status := "cancelled" } ::
            [{ date := "2025-01-16", slackUserId := "U1", imChannelId := "D1",
               scheduledMessageId := "M3", postAt := "222", status := "sent" }]) :=
  ⟨(claimC7 "2025-01-15" "U9" "cancelled").1 _ (by decide),
   (claimC7 "2025-01-15" "U1" "cancelled").2 _ _ _ (by decide) (by decide) (by decide)⟩

/-- C10: recordCheckIn passes over a row of the key whose check-in cell is
empty, appending a second row for the same key instead of filling the
existing one; accordingly the at-most-one-row-per-key property is
maintained only among rows with a non-empty check-in time, and recordCheckIn
does preserve that restricted invariant. -/
theorem claimC10 :
    (∀ (L : List AttRow) (r0 : AttRow) (uid name d timePk nowIso : String),
        r0 ∈ L → r0.date = d → r0.slackUserId = uid →
        (∀ r ∈ L, ¬ isCheckedInRowFor d uid r) →
        recordCheckIn L uid name d timePk nowIso
          = ({ alreadyCheckedIn := false, checkInTime := none, date := d,
               firstCheckInTimestamp := some nowIso },
             L ++ [{ date := d, slackUserId := uid, employeeName := name,
                     checkInTime := timePk, checkOutTime := "", totalHours := "",
                     firstCheckInTimestamp := nowIso, lastCheckOutTimestamp := "" }])) ∧
    (∀ (L : List AttRow) (uid name d timePk nowIso : String),
        attLedgerInv L → timePk ≠ "" →
        attLedgerInv (recordCheckIn L uid name d timePk nowIso).2) := by
  constructor
  · intro L r0 uid name d timePk nowIso _ _ _ hall
    have hf : findCheckedInRow L d uid = none := (findCheckedInRow_none_iff L d uid).mpr hall
    simp [recordCheckIn, hf]
  · intro L uid name d timePk nowIso hinv ht
    cases hf : findCheckedInRow L d uid with
    | some r =>
      simpa [recordCheckIn, hf] using hinv
    | none =>
      intro d2 u2
      have hnil := checkedInRowsFor_nil_of_none L d uid hf
      have hL2 : (recordCheckIn L uid name d timePk nowIso).2
          = L ++ [{ date := d, slackUserId := uid, employeeName := name, checkInTime := timePk,
                    checkOutTime := "", totalHours := "", firstCheckInTimestamp := nowIso,
                    lastCheckOutTimestamp := "" }] := by
        simp [recordCheckIn, hf]
      rw [hL2, checkedInRowsFor, List.filter_append]
      by_cases hm : isCheckedInRowFor d2 u2
          { date := d, slackUserId := uid, employeeName := name, checkInTime := timePk,
            checkOutTime := "", totalHours := "", firstCheckInTimestamp := nowIso,
            lastCheckOutTimestamp := "" }
      · have hd2 : d2 = d := hm.1.symm
        have hu2 : u2 = uid := hm.2.1.symm
        subst hd2
        subst hu2
        rw [checkedInRowsFor] at hnil
        rw [hnil]
        simp [hm]
      · have htail : List.filter (fun r => decide (isCheckedInRowFor d2 u2 r))
            [{ date := d, slackUserId := uid, employeeName := name, checkInTime := timePk,
               checkOutTime := "", totalHours := "", firstCheckInTimestamp := nowIso,
               lastCheckOutTimestamp := "" }] = [] := by
          simp [hm]
        rw [htail, List.append_nil]
        exact hinv d2 u2

/-- C10 witness: a tab holding exactly one row for (2025-01-15, U1) with an
empty check-in cell gets a second row for the same key appended; the
restricted invariant survives. -/
theorem claimC10_witness :
    recordCheckIn
        [{ date := "2025-01-15", slackUserId := "U1", employeeName := "Ada",
           checkInTime := "", checkOutTime := "", totalHours := "",
           firstCheckInTimestamp := "", lastCheckOutTimestamp := "" }]
        "U1" "Ada" "2025-01-15" "09:05:00" "2025-01-15T04:05:00.000Z"
      = ({ alreadyCheckedIn := false, checkInTime := none, date := "2025-01-15",
           firstCheckInTimestamp := some "2025-01-15T04:05:00.000Z" },
         [{ date := "2025-01-15", slackUserId := "U1", employeeName := "Ada",
            checkInTime := "", checkOutTime := "", totalHours := "",
            firstCheckInTimestamp := "", lastCheckOutTimestamp := "" }] ++
           [{ date := "2025-01-15", slackUserId := "U1", employeeName := "Ada",
              checkInTime := "09:05:00", checkOutTime := "", totalHours := "",
              firstCheckInTimestamp := "2025-01-15T04:05:00.000Z", lastCheckOutTimestamp := "" }]) :=
  claimC10.1
    [{ date := "2025-01-15", slackUserId := "U1", employeeName := "Ada",
       checkInTime := "", checkOutTime := "", totalHours := "",
       firstCheckInTimestamp := "", lastCheckOutTimestamp := "" }]
    { date := "2025-01-15", slackUserId := "U1", employeeName := "Ada",
      checkInTime := "", checkOutTime := "", totalHours := "",
      firstCheckInTimestamp := "", lastCheckOutTimestamp := "" }
    "U1" "Ada" "2025-01-15" "09:05:00" "2025-01-15T04:05:00.000Z"
    (by decide) (by decide) (by decide) (by decide)

/-- C2: the token verifier does throw. At a fresh, well-formed ts and a
supplied sig whose byte length differs from the 64-character hex digest,
verifySignedAttendanceRequest propagates the RangeError of
crypto.timingSafeEqual instead of returning a boolean: the source wraps the
comparison in no try/catch. -/
theorem claimC2_eval :
    verifySignedAttendanceRequest (some "k") demoHmac 1000 "checkin" "U1" "1000" "deadbeef"
      = Except.error ("RangeError: Input buffers must have the same byte length") := rfl

/-- C4: signature round trip with time window. For any keyed digest
function and configured secret, verifying the (u, ts, sig) triple produced
by generateSignedAttendanceUrl with the same action type succeeds exactly
when the elapsed time now - issuedAtMs lies in [0, 10 minutes], and fails
when it is negative or above the window. The jsNumber hypothesis is the
decimal round trip Number(issuedAtMs.toString()) = issuedAtMs, discharged
by computation at any concrete instant. -/
theorem claimC4 (sec base : String) (hmac : String → String → String)
    (issuedMs nowMs : Int) (type uid : String) (p : SignedParams)
    (hgen : generateSignedAttendanceUrl (some sec) (some base) hmac issuedMs type uid
      = Except.ok p)
    (hts : jsNumber p.ts = some issuedMs) :
    verifySignedAttendanceRequest (some sec) hmac nowMs type p.slackUserId p.ts p.sig
      = Except.ok (decide (0 ≤ nowMs - issuedMs ∧ nowMs - issuedMs ≤ ATTENDANCE_MAX_AGE_MS)) := by
  have hp : p = { slackUserId := uid, ts := toString issuedMs,
                  sig := hmac sec (type ++ ":" ++ uid ++ ":" ++ toString issuedMs) } := by
    have := hgen
    rw [generateSignedAttendanceUrl] at this
    exact (Except.ok.injEq _ _).mp this.symm
  subst hp
  rw [verifySignedAttendanceRequest]
  simp only [hts]
  by_cases h1 : nowMs - issuedMs > ATTENDANCE_MAX_AGE_MS
  · rw [if_pos h1]
    have : decide (0 ≤ nowMs - issuedMs ∧ nowMs - issuedMs ≤ ATTENDANCE_MAX_AGE_MS) = false := by
      rw [decide_eq_false_iff_not]
      intro hc
      omega
    rw [this]
  · rw [if_neg h1]
    by_cases h2 : nowMs - issuedMs < 0
    · rw [if_pos h2]
      have : decide (0 ≤ nowMs - issuedMs ∧ nowMs - issuedMs ≤ ATTENDANCE_MAX_AGE_MS) = false := by
        rw [decide_eq_false_iff_not]
        intro hc
        omega
      rw [this]
    · rw [if_neg h2]
      have hb : decide (0 ≤ nowMs - issuedMs ∧ nowMs - issuedMs ≤ ATTENDANCE_MAX_AGE_MS) = true := by
        rw [decide_eq_true_eq]
        omega
      rw [hb, timingSafeEqual, if_pos rfl]
      simp

/-- C4 witness: a link issued at instant 1000 is verified at the same
instant; the round trip accepts. -/
theorem claimC4_witness :
    verifySignedAttendanceRequest (some "k") demoHmac 1000 "checkin" "U1" (toString (1000 : Int))
        (demoHmac "k" ("checkin" ++ ":" ++ "U1" ++ ":" ++ toString (1000 : Int)))
      = Except.ok true := by
  have h := claimC4 "k" "https://example.test" demoHmac 1000 1000 "checkin" "U1"
    { slackUserId := "U1", ts := toString (1000 : Int),
      sig := demoHmac "k" ("checkin" ++ ":" ++ "U1" ++ ":" ++ toString (1000 : Int)) }
    rfl (by decide)
  simpa using h

/-- C9: a ts that does not parse as a number skips both time-window
rejections. When Number(ts) is NaN, neither the expired branch nor the
future-timestamp branch fires (comparisons with NaN are false), and the
verifier outcome is exactly the constant-time comparison of the supplied
signature with the HMAC of type:slackUserId:ts — no expiry applies; in
particular a matching signature is accepted at any age. -/
theorem claimC9 (sec : String) (hmac : String → String → String) (nowMs : Int)
    (type uid ts sig : String) (hNaN : jsNumber ts = none) :
    verifySignedAttendanceRequest (some sec) hmac nowMs type uid ts sig
      = timingSafeEqual (hmac sec (type ++ ":" ++ uid ++ ":" ++ ts)) sig ∧
    (sig = hmac sec (type ++ ":" ++ uid ++ ":" ++ ts) →
      verifySignedAttendanceRequest (some sec) hmac nowMs type uid ts sig = Except.ok true) := by
  constructor
  · rw [verifySignedAttendanceRequest]
    simp only [hNaN]
  · intro hsig
    subst hsig
    rw [verifySignedAttendanceRequest]
    simp only [hNaN]
    rw [timingSafeEqual, if_pos rfl]
    simp

/-- C9 witness: the non-numeric ts "abc" with a matching signature is
accepted at an arbitrarily late clock reading. -/
theorem claimC9_witness :
    verifySignedAttendanceRequest (some "k") demoHmac 99999999999 "checkin" "U1" "abc"
        (demoHmac "k" ("checkin" ++ ":" ++ "U1" ++ ":" ++ "abc"))
      = Except.ok true :=
  (claimC9 "k" demoHmac 99999999999 "checkin" "U1" "abc"
    (demoHmac "k" ("checkin" ++ ":" ++ "U1" ++ ":" ++ "abc")) (by decide)).2 rfl

/-- C6: reminder cancellation is non-fatal to check-in. Whenever the
check-in handler has freshly claimed the attendance row, then for every
combination of failures in the reminder lookup, the provider-side
cancellation and the status update (all switches of the environment), the
handler still answers the check-in success body and the appended check-in
row stays in the ledger. The announcement hypothesis keeps the final
chat.postMessage of the handler, outside the cancellation block, out of
the way. -/
theorem claimC6 (env : CheckInEnv) (L : List AttRow) (queue : Queue)
    (uid name d timePk nowIso hhmm : String)
    (hfresh : (recordCheckIn L uid name d timePk nowIso).1.alreadyCheckedIn = false)
    (hann : env.announceFails = false) :
    checkInGate env L queue uid name d timePk nowIso hhmm
      = ("✅ Check-in recorded for " ++ name ++ " at " ++ hhmm ++ ".",
         L ++ [{ date := d, slackUserId := uid, employeeName := name, checkInTime := timePk,
                 checkOutTime := "", totalHours := "", firstCheckInTimestamp := nowIso,
                 lastCheckOutTimestamp := "" }],
         cancelReminderStep env queue d uid) := by
  have hf : findCheckedInRow L d uid = none := recordCheckIn_fresh L uid name d timePk nowIso hfresh
  rw [checkInGate]
  simp [recordCheckIn, hf, hann]

/-- C6 witness: with the lookup, the provider cancellation and the status
update all failing, the fresh check-in of U1 still answers the success body
and keeps its row. -/
theorem claimC6_witness :
    checkInGate { findFails := true, deleteFails := true, markFails := true, announceFails := false }
        [] [{ date := "2025-01-15", slackUserId := "U1", imChannelId := "D1",
              scheduledMessageId := "M1", postAt := "123", status := "scheduled" }]
        "U1" "Ada" "2025-01-15" "09:05:00" "2025-01-15T04:05:00.000Z" "09:05"
      = ("✅ Check-in recorded for " ++ "Ada" ++ " at " ++ "09:05" ++ ".",
         [] ++ [{ date := "2025-01-15", slackUserId := "U1", employeeName := "Ada",
                  checkInTime := "09:05:00", checkOutTime := "", totalHours := "",
                  firstCheckInTimestamp := "2025-01-15T04:05:00.000Z", lastCheckOutTimestamp := "" }],
         cancelReminderStep
           { findFails := true, deleteFails := true, markFails := true, announceFails := false }
           [{ date := "2025-01-15", slackUserId := "U1", imChannelId := "D1",
              scheduledMessageId := "M1", postAt := "123", status := "scheduled" }]
           "2025-01-15" "U1") :=
  claimC6 { findFails := true, deleteFails := true, markFails := true, announceFails := false }
    [] _ "U1" "Ada" "2025-01-15" "09:05:00" "2025-01-15T04:05:00.000Z" "09:05"
    (by decide) rfl

/-- Each member outcome feeds exactly one counter. -/
theorem countOf_sum (oc : MemberOutcome) :
    (countOf oc).scheduled + (countOf oc).skipped + (countOf oc).errors = 1 := by
  cases oc <;> rfl

/-- addCounts is associative, componentwise. -/
theorem addCounts_assoc (a b c : RunCounts) :
    addCounts (addCounts a b) c = addCounts a (addCounts b c) := by
  simp [addCounts, Nat.add_assoc]

/-- The zero counter is neutral on the left. -/
theorem addCounts_zero_left (a : RunCounts) :
    addCounts { scheduled := 0, skipped := 0, errors := 0 } a = a := by
  simp [addCounts]

/-- The counters of a loop run sum to the number of processed members: no
member is dropped and none is counted twice. -/
theorem schedulerLoop_counts_sum (envOf : String → MemberEnv) (datePk : String) (postAt : Int)
    (members : List String) (queue : Queue) :
    (schedulerLoop envOf datePk postAt members queue).1.scheduled
      + (schedulerLoop envOf datePk postAt members queue).1.skipped
      + (schedulerLoop envOf datePk postAt members queue).1.errors
      = members.length := by
  induction members generalizing queue with
  | nil => rfl
  | cons m ms ih =>
    rw [schedulerLoop]
    have hsum := countOf_sum (processMember (envOf m) queue datePk postAt m).1
    have hih := ih (processMember (envOf m) queue datePk postAt m).2
    simp only [addCounts, List.length_cons]
    omega

/-- The loop over a concatenation of rosters is the loop over the first
part followed by the loop over the second from the resulting queue, with
counters added: a failing member in the first part never aborts the rest. -/
theorem schedulerLoop_append (envOf : String → MemberEnv) (datePk : String) (postAt : Int)
    (ms1 ms2 : List String) (queue : Queue) :
    schedulerLoop envOf datePk postAt (ms1 ++ ms2) queue
      = (addCounts (schedulerLoop envOf datePk postAt ms1 queue).1
           (schedulerLoop envOf datePk postAt ms2 (schedulerLoop envOf datePk postAt ms1 queue).2).1,
         (schedulerLoop envOf datePk postAt ms2 (schedulerLoop envOf datePk postAt ms1 queue).2).2) := by
  induction ms1 generalizing queue with
  | nil =>
    simp [schedulerLoop, addCounts_zero_left]
  | cons m ms ih =>
    rw [List.cons_append, schedulerLoop, ih, schedulerLoop, addCounts_assoc]

/-- C8: scheduler failure isolation and aggregate counts. The reported
scheduled, skipped and error counts account for every roster member (they
sum to totalMembers, which is the roster size), and the loop over any split
of the roster decomposes into the loop over the first part followed by the
loop over the second: an errored member, whatever external call failed for
it, leaves the remaining members processed as usual. -/
theorem claimC8 (envOf : String → MemberEnv) (datePk : String) (postAt : Int)
    (members : List String) (queue : Queue) :
    ((scheduleCheckinRemindersRun envOf datePk postAt members queue).1.scheduled
       + (scheduleCheckinRemindersRun envOf datePk postAt members queue).1.skipped
       + (scheduleCheckinRemindersRun envOf datePk postAt members queue).1.errors
      = (scheduleCheckinRemindersRun envOf datePk postAt members queue).1.totalMembers) ∧
    (∀ ms1 ms2 : List String, ∀ q : Queue,
        schedulerLoop envOf datePk postAt (ms1 ++ ms2) q
          = (addCounts (schedulerLoop envOf datePk postAt ms1 q).1
               (schedulerLoop envOf datePk postAt ms2 (schedulerLoop envOf datePk postAt ms1 q).2).1,
             (schedulerLoop envOf datePk postAt ms2 (schedulerLoop envOf datePk postAt ms1 q).2).2)) := by
  constructor
  · have h := schedulerLoop_counts_sum envOf datePk postAt members queue
    simpa [scheduleCheckinRemindersRun] using h
  · intro ms1 ms2 q
    exact schedulerLoop_append envOf datePk postAt ms1 ms2 q

/-- C1 counterexample: the claimed monotonicity fails on the code. A queue
whose single entry for (2025-01-15, U1) is cancelled, re-run through the
daily scheduler with the provider calls succeeding, ends with that same
entry reverted to scheduled: the skip test of the loop passes over any
status other than the string scheduled, and the upsert then overwrites the
row. -/
theorem claimC1_counterexample :
    ([{ date := "2025-01-15", slackUserId := "U1", imChannelId := "D1",
        scheduledMessageId := "M1", postAt := "123",
        status := "cancelled" }] : Queue).map (fun r => r.status) = ["cancelled"] ∧
    ((scheduleCheckinRemindersRun (fun _ => allOkEnv "D1" "M2") "2025-01-15" 999 ["U1"]
        [{ date := "2025-01-15", slackUserId := "U1", imChannelId := "D1",
           scheduledMessageId := "M1", postAt := "123", status := "cancelled" }]).2).map
      (fun r => r.status) = ["scheduled"] := by
  constructor
  · rfl
  · decide

/-- C1 (amended): re-running the scheduler while the queue entry for the
key has status scheduled is a no-op for that member — the member is counted
as skipped and the queue is unchanged; but the monotonicity half of the
claim fails: for an entry whose status is anything else (cancelled or
sent), a re-run whose provider calls succeed overwrites the entry, and the
entry for the key afterwards has status scheduled again. -/
theorem claimC1_amended :
    (∀ (env : MemberEnv) (queue : Queue) (d : String) (postAt : Int) (m : String)
        (e : FoundReminder),
        env.findFails = false → findReminderForUser queue d m = some e →
        e.status = "scheduled" →
        processMember env queue d postAt m = (MemberOutcome.skipped, queue)) ∧
    (∀ (queue : Queue) (d : String) (postAt : Int) (m c mid : String) (e : FoundReminder),
        findReminderForUser queue d m = some e → e.status ≠ "scheduled" →
        processMember (allOkEnv c mid) queue d postAt m
          = (MemberOutcome.scheduled,
             upsertRow queue { date := d, slackUserId := m, imChannelId := c,
                               scheduledMessageId := mid, postAt := toString postAt,
                               status := "scheduled" }) ∧
        (findReminderForUser
            (upsertRow queue { date := d, slackUserId := m, imChannelId := c,
                               scheduledMessageId := mid, postAt := toString postAt,
                               status := "scheduled" }) d m).map (fun x => x.status)
          = some "scheduled") := by
  constructor
  · intro env queue d postAt m e hff hfind hst
    rw [processMember]
    simp [hff, hfind, statusIsScheduled, hst]
  · intro queue d postAt m c mid e hfind hst
    constructor
    · rw [processMember]
      simp [allOkEnv, hfind, statusIsScheduled, hst, upsertReminderQueueRow]
    · have h := find_upsertRow queue
        { date := d, slackUserId := m, imChannelId := c, scheduledMessageId := mid,
          postAt := toString postAt, status := "scheduled" }
      rw [h]
      rfl

/-- C1 witness: a scheduled entry for (2025-01-15, U1) makes the re-run
skip and leave the queue alone; a cancelled entry for the same key is
overwritten back to scheduled by a successful re-run. -/
theorem claimC1_amended_witness :
    processMember (allOkEnv "D1" "M2")
        [{ date := "2025-01-15", slackUserId := "U1", imChannelId := "D1",
           scheduledMessageId := "M1", postAt := "123", status := "scheduled" }]
        "2025-01-15" 999 "U1"
      = (MemberOutcome.skipped,
         [{ date := "2025-01-15", slackUserId := "U1", imChannelId := "D1",
            scheduledMessageId := "M1", postAt := "123", status := "scheduled" }]) ∧
    (processMember (allOkEnv "D1" "M2")
        [{ date := "2025-01-15", slackUserId := "U1", imChannelId := "D1",
           scheduledMessageId := "M1", postAt := "123", status := "cancelled" }]
        "2025-01-15" 999 "U1"
      = (MemberOutcome.scheduled,
         upsertRow
           [{ date := "2025-01-15", slackUserId := "U1", imChannelId := "D1",
              scheduledMessageId := "M1", postAt := "123", status := "cancelled" }]
           { date := "2025-01-15", slackUserId := "U1", imChannelId := "D1",
             scheduledMessageId := "M2", postAt := toString (999 : Int),
             status := "scheduled" }) ∧
      (findReminderForUser
          (upsertRow
            [{ date := "2025-01-15", slackUserId := "U1", imChannelId := "D1",
               scheduledMessageId := "M1", postAt := "123", status := "cancelled" }]
            { date := "2025-01-15", slackUserId := "U1", imChannelId := "D1",
              scheduledMessageId := "M2", postAt := toString (999 : Int),
              status := "scheduled" }) "2025-01-15" "U1").map (fun x => x.status)
        = some "scheduled") :=
  ⟨claimC1_amended.1 (allOkEnv "D1" "M2") _ "2025-01-15" 999 "U1"
      { imChannelId := "D1", scheduledMessageId := "M1", postAt := 123, status := "scheduled" }
      rfl (by decide) rfl,
   claimC1_amended.2 _ "2025-01-15" 999 "U1" "D1" "M2"
      { imChannelId := "D1", scheduledMessageId := "M1", postAt := 123, status := "cancelled" }
      (by decide) (by decide)⟩
